import Mathlib

/-!
Verification of the outbound message envelope of
`cosmwasm/enclaves/shared/cosmwasm-v1-types/src/results/cosmos_msg.rs`
(Secret Network).

The Rust source defines the serde-serialized `CosmosMsg` tagged union and its
module sub-unions (`BankMsg`, `StakingMsg`, `DistributionMsg`, `WasmMsg`,
`GovMsg`, `VoteOption`), the `From` upcasts into the envelope, and the
`REPLY_ENCRYPTION_MAGIC_BYTES` constant.  We embed the data model and the
serde-derived JSON codec (externally tagged enums, `rename_all = "snake_case"`,
the `#[serde(rename = "send")]` on `funds`, `Option` fields encoded as `null`
when `None` and implicitly defaulting to `None` when absent, unknown struct
fields ignored) and prove the specified wire properties.
-/

set_option maxHeartbeats 1000000

namespace SecretNet

/-- A JSON-like wire value, the target of serde serialization.  Objects keep
field order (serde emits struct fields in declaration order). -/
inductive Json : Type where
  | null : Json
  | str : String → Json
  | num : Nat → Json
  | arr : List Json → Json
  | obj : List (String × Json) → Json
deriving Repr

/-- Decode failures, per the failure taxonomy of deserialization: an
unrecognized wire tag, a missing required field, or a wire value whose shape
does not match the declared type. -/
inductive DecodeError : Type where
  | unknownTag : String → DecodeError
  | missingField : String → DecodeError
  | typeMismatch : String → DecodeError
deriving Repr, BEq, DecidableEq

/-- Type `Coin { denom: String, amount: Uint128-as-string }`.
Modelled from the spec: the coin type is an external collaborator
(`crate::coins::Coin` is not part of this core); the spec describes it as
`Coin{denom: string, amount: string-encoded integer}`. -/
structure Coin : Type where
  denom : String
  amount : String
deriving Repr, DecidableEq

/-- Type `Binary`, an opaque byte blob.
Modelled from the spec: the binary codec type is an external collaborator
(`enclave_cosmwasm_types::encoding::Binary` is not part of this core); the
spec describes it as "a `Binary` opaque byte-blob type with base64 wire
representation".  Bytes are `Nat`s below 256. -/
structure Binary : Type where
  data : List Nat
deriving Repr, DecidableEq

/-- Type `IbcMsg`.
Modelled from the spec: the IBC message type is an external collaborator
supplied by a separate module ("delegates to external IBC message schema");
we model it as an opaque wire payload. -/
structure IbcMsg : Type where
  payload : Json
deriving Repr

/-- Type `Empty`, the default `Custom` payload type (`super::Empty`): a struct with
no fields, serialized as the empty JSON object. -/
structure Empty : Type where
deriving Repr, DecidableEq

/-- The message types of the bank module (enum `BankMsg`). -/
inductive BankMsg : Type where
  | Send : (to_address : String) → (amount : List Coin) → BankMsg
  | Burn : (amount : List Coin) → BankMsg
deriving Repr, DecidableEq

/-- Constant `pub const REPLY_ENCRYPTION_MAGIC_BYTES: &[u8] = b"REPLY01";`. -/
def REPLY_ENCRYPTION_MAGIC_BYTES : List Nat := "REPLY01".data.map Char.toNat

/-- The message types of the staking module (enum `StakingMsg`,
`#[cfg(feature = "staking")]`). -/
inductive StakingMsg : Type where
  | Delegate : (validator : String) → (amount : Coin) → StakingMsg
  | Undelegate : (validator : String) → (amount : Coin) → StakingMsg
  | Redelegate : (src_validator : String) → (dst_validator : String) →
      (amount : Coin) → StakingMsg
deriving Repr, DecidableEq

/-- The message types of the distribution module (enum `DistributionMsg`,
`#[cfg(feature = "staking")]`). -/
inductive DistributionMsg : Type where
  | SetWithdrawAddress : (address : String) → DistributionMsg
  | WithdrawDelegatorReward : (validator : String) → DistributionMsg
deriving Repr, DecidableEq

/-- The message types of the wasm module (enum `WasmMsg`).  `funds` is the
in-memory field name; its wire name is `send` via `#[serde(rename = "send")]`.
`callback_sig` is `Option<Vec<u8>>`. -/
inductive WasmMsg : Type where
  | Execute : (contract_addr : String) → (code_hash : String) → (msg : Binary) →
      (funds : List Coin) → (callback_sig : Option (List Nat)) → WasmMsg
  | Instantiate : (code_id : Nat) → (code_hash : String) → (msg : Binary) →
      (funds : List Coin) → (label : String) →
      (callback_sig : Option (List Nat)) → WasmMsg
deriving Repr, DecidableEq

/-- Enum `VoteOption` (`#[cfg(feature = "stargate")]`). -/
inductive VoteOption : Type where
  | Yes : VoteOption
  | No : VoteOption
  | Abstain : VoteOption
  | NoWithVeto : VoteOption
deriving Repr, DecidableEq

/-- Enum `GovMsg` (`#[cfg(feature = "stargate")]`). -/
inductive GovMsg : Type where
  | Vote : (proposal_id : Nat) → (vote : VoteOption) → GovMsg
deriving Repr, DecidableEq

/-- The envelope `CosmosMsg<T = Empty>`, generic over the `Custom` payload.
All capability-gated variants are present (the full-featured build, with the
`staking` and `stargate` features compiled in). -/
inductive CosmosMsg (T : Type) : Type where
  | Bank : BankMsg → CosmosMsg T
  | Custom : T → CosmosMsg T
  | Staking : StakingMsg → CosmosMsg T
  | Distribution : DistributionMsg → CosmosMsg T
  | Stargate : (type_url : String) → (value : Binary) → CosmosMsg T
  | Ibc : IbcMsg → CosmosMsg T
  | Wasm : WasmMsg → CosmosMsg T
  | Gov : GovMsg → CosmosMsg T
deriving Repr

/-- Conversion `impl From<BankMsg> for CosmosMsg<T>`. -/
def cosmosMsgFromBank {T : Type} (msg : BankMsg) : CosmosMsg T :=
  CosmosMsg.Bank msg

/-- Conversion `impl From<StakingMsg> for CosmosMsg<T>` (`#[cfg(feature = "staking")]`). -/
def cosmosMsgFromStaking {T : Type} (msg : StakingMsg) : CosmosMsg T :=
  CosmosMsg.Staking msg

/-- Conversion `impl From<DistributionMsg> for CosmosMsg<T>`
(`#[cfg(feature = "staking")]`). -/
def cosmosMsgFromDistribution {T : Type} (msg : DistributionMsg) : CosmosMsg T :=
  CosmosMsg.Distribution msg

/-- Conversion `impl From<WasmMsg> for CosmosMsg<T>`. -/
def cosmosMsgFromWasm {T : Type} (msg : WasmMsg) : CosmosMsg T :=
  CosmosMsg.Wasm msg

/-- Conversion `impl From<IbcMsg> for CosmosMsg<T>` (`#[cfg(feature = "stargate")]`). -/
def cosmosMsgFromIbc {T : Type} (msg : IbcMsg) : CosmosMsg T :=
  CosmosMsg.Ibc msg

/-- Conversion `impl From<GovMsg> for CosmosMsg<T>` (`#[cfg(feature = "stargate")]`). -/
def cosmosMsgFromGov {T : Type} (msg : GovMsg) : CosmosMsg T :=
  CosmosMsg.Gov msg

/-! ### Base64 (wire representation of `Binary`)

Modelled from the spec: `Binary` is "an opaque byte-blob type with base64 wire
representation"; its codec lives outside this core.  Standard base64 with
`=` padding. -/

/-- The 64-character base64 alphabet. -/
def b64Alphabet : List Char :=
  ['A','B','C','D','E','F','G','H','I','J','K','L','M','N','O','P',
   'Q','R','S','T','U','V','W','X','Y','Z',
   'a','b','c','d','e','f','g','h','i','j','k','l','m','n','o','p',
   'q','r','s','t','u','v','w','x','y','z',
   '0','1','2','3','4','5','6','7','8','9','+','/']

/-- The character encoding a sextet. -/
def b64Char (n : Nat) : Char := b64Alphabet.getD n 'A'

/-- The sextet encoded by a character, if any. -/
def b64Val (c : Char) : Option Nat := b64Alphabet.findIdx? (· = c)

/-- Encode a byte list to base64 characters, three bytes per four characters,
padding the final group with `=`. -/
def b64EncodeBytes : List Nat → List Char
  | [] => []
  | [a] => [b64Char (a / 4), b64Char (a % 4 * 16), '=', '=']
  | [a, b] => [b64Char (a / 4), b64Char (a % 4 * 16 + b / 16),
               b64Char (b % 16 * 4), '=']
  | a :: b :: c :: rest =>
      b64Char (a / 4) :: b64Char (a % 4 * 16 + b / 16) ::
      b64Char (b % 16 * 4 + c / 64) :: b64Char (c % 64) :: b64EncodeBytes rest

/-- Decode base64 characters to bytes; `none` on malformed input. -/
def b64DecodeBytes : List Char → Option (List Nat)
  | [] => some []
  | c1 :: c2 :: c3 :: c4 :: rest =>
      if c3 = '=' ∧ c4 = '=' ∧ rest = [] then
        match b64Val c1, b64Val c2 with
        | some v1, some v2 => some [v1 * 4 + v2 / 16]
        | _, _ => none
      else if c4 = '=' ∧ rest = [] then
        match b64Val c1, b64Val c2, b64Val c3 with
        | some v1, some v2, some v3 =>
            some [v1 * 4 + v2 / 16, v2 % 16 * 16 + v3 / 4]
        | _, _, _ => none
      else
        match b64Val c1, b64Val c2, b64Val c3, b64Val c4,
              b64DecodeBytes rest with
        | some v1, some v2, some v3, some v4, some tail =>
            some ((v1 * 4 + v2 / 16) :: (v2 % 16 * 16 + v3 / 4) ::
                  (v3 % 4 * 64 + v4) :: tail)
        | _, _, _, _, _ => none
  | _ => none

/-! ### Serde-derived JSON codec

Encoding follows serde's externally tagged enum representation with
`rename_all = "snake_case"`: each variant becomes a single-key object whose
key is the variant's snake_case name (unit variants become a bare string).
Struct fields are emitted in declaration order under their snake_case names,
except `funds`, emitted under `send` (`#[serde(rename = "send")]`).
`Option` fields encode as `null` when `None`.

Decoding expects a single-key object, dispatches on the tag, reads each known
field by name (ignoring unknown fields, serde's default), treats a missing or
`null` `Option` field as `None`, and rejects unknown tags, missing required
fields and mismatched shapes with a `DecodeError`. -/

/-- First value bound to key `k`, if any. -/
def jLookup (k : String) : List (String × Json) → Option Json
  | [] => none
  | (k', v) :: rest => if k' = k then some v else jLookup k rest

/-- Encode a `Coin` to wire form. -/
def encodeCoin (c : Coin) : Json :=
  Json.obj [("denom", Json.str c.denom), ("amount", Json.str c.amount)]

/-- Encode a `Binary` to wire form: a base64 string. -/
def encodeBinary (b : Binary) : Json :=
  Json.str (String.mk (b64EncodeBytes b.data))

/-- Encode an `Option<Vec<u8>>` to wire form: `null` when `None`, a number array when
`Some` (serde's default for `Option` and `Vec<u8>`). -/
def encodeOptBytes : Option (List Nat) → Json
  | none => Json.null
  | some l => Json.arr (l.map Json.num)

/-- Encode a `BankMsg` to wire form. -/
def encodeBankMsg : BankMsg → Json
  | BankMsg.Send to_address amount =>
      Json.obj [("send", Json.obj
        [("to_address", Json.str to_address),
         ("amount", Json.arr (amount.map encodeCoin))])]
  | BankMsg.Burn amount =>
      Json.obj [("burn", Json.obj
        [("amount", Json.arr (amount.map encodeCoin))])]

/-- Encode a `StakingMsg` to wire form. -/
def encodeStakingMsg : StakingMsg → Json
  | StakingMsg.Delegate validator amount =>
      Json.obj [("delegate", Json.obj
        [("validator", Json.str validator), ("amount", encodeCoin amount)])]
  | StakingMsg.Undelegate validator amount =>
      Json.obj [("undelegate", Json.obj
        [("validator", Json.str validator), ("amount", encodeCoin amount)])]
  | StakingMsg.Redelegate src_validator dst_validator amount =>
      Json.obj [("redelegate", Json.obj
        [("src_validator", Json.str src_validator),
         ("dst_validator", Json.str dst_validator),
         ("amount", encodeCoin amount)])]

/-- Encode a `DistributionMsg` to wire form. -/
def encodeDistributionMsg : DistributionMsg → Json
  | DistributionMsg.SetWithdrawAddress address =>
      Json.obj [("set_withdraw_address", Json.obj
        [("address", Json.str address)])]
  | DistributionMsg.WithdrawDelegatorReward validator =>
      Json.obj [("withdraw_delegator_reward", Json.obj
        [("validator", Json.str validator)])]

/-- Encode a `WasmMsg` to wire form.  The in-memory `funds` field is written under the
wire key `send`. -/
def encodeWasmMsg : WasmMsg → Json
  | WasmMsg.Execute contract_addr code_hash msg funds callback_sig =>
      Json.obj [("execute", Json.obj
        [("contract_addr", Json.str contract_addr),
         ("code_hash", Json.str code_hash),
         ("msg", encodeBinary msg),
         ("send", Json.arr (funds.map encodeCoin)),
         ("callback_sig", encodeOptBytes callback_sig)])]
  | WasmMsg.Instantiate code_id code_hash msg funds label callback_sig =>
      Json.obj [("instantiate", Json.obj
        [("code_id", Json.num code_id),
         ("code_hash", Json.str code_hash),
         ("msg", encodeBinary msg),
         ("send", Json.arr (funds.map encodeCoin)),
         ("label", Json.str label),
         ("callback_sig", encodeOptBytes callback_sig)])]

/-- Encode a `VoteOption` to wire form: unit variants serialize as bare strings. -/
def encodeVoteOption : VoteOption → Json
  | VoteOption.Yes => Json.str "yes"
  | VoteOption.No => Json.str "no"
  | VoteOption.Abstain => Json.str "abstain"
  | VoteOption.NoWithVeto => Json.str "no_with_veto"

/-- Encode a `GovMsg` to wire form. -/
def encodeGovMsg : GovMsg → Json
  | GovMsg.Vote proposal_id vote =>
      Json.obj [("vote", Json.obj
        [("proposal_id", Json.num proposal_id),
         ("vote", encodeVoteOption vote)])]

/-- Encode an `Empty` to wire form: the empty object. -/
def encodeEmpty (_ : Empty) : Json := Json.obj []

/-- Encode a `CosmosMsg<T>` to wire form, given the codec of the `Custom` payload
(serialization of `T` is required only at the point of use). -/
def encodeCosmosMsg {T : Type} (encT : T → Json) : CosmosMsg T → Json
  | CosmosMsg.Bank m => Json.obj [("bank", encodeBankMsg m)]
  | CosmosMsg.Custom t => Json.obj [("custom", encT t)]
  | CosmosMsg.Staking m => Json.obj [("staking", encodeStakingMsg m)]
  | CosmosMsg.Distribution m =>
      Json.obj [("distribution", encodeDistributionMsg m)]
  | CosmosMsg.Stargate type_url value =>
      Json.obj [("stargate", Json.obj
        [("type_url", Json.str type_url), ("value", encodeBinary value)])]
  | CosmosMsg.Ibc m => Json.obj [("ibc", m.payload)]
  | CosmosMsg.Wasm m => Json.obj [("wasm", encodeWasmMsg m)]
  | CosmosMsg.Gov m => Json.obj [("gov", encodeGovMsg m)]

/-- Required string field. -/
def getStr (fields : List (String × Json)) (k : String) :
    Except DecodeError String :=
  match jLookup k fields with
  | some (Json.str s) => Except.ok s
  | some _ => Except.error (DecodeError.typeMismatch k)
  | none => Except.error (DecodeError.missingField k)

/-- Required `u64` field: a JSON number below `2^64`. -/
def getU64 (fields : List (String × Json)) (k : String) :
    Except DecodeError Nat :=
  match jLookup k fields with
  | some (Json.num n) =>
      if n < 2 ^ 64 then Except.ok n
      else Except.error (DecodeError.typeMismatch k)
  | some _ => Except.error (DecodeError.typeMismatch k)
  | none => Except.error (DecodeError.missingField k)

/-- Wire form to `Coin`. -/
def decodeCoin : Json → Except DecodeError Coin
  | Json.obj fields =>
      match getStr fields "denom", getStr fields "amount" with
      | Except.ok d, Except.ok a => Except.ok ⟨d, a⟩
      | Except.error e, _ => Except.error e
      | _, Except.error e => Except.error e
  | _ => Except.error (DecodeError.typeMismatch "Coin")

/-- Wire form to `Vec<Coin>` elements. -/
def decodeCoinList : List Json → Except DecodeError (List Coin)
  | [] => Except.ok []
  | j :: rest =>
      match decodeCoin j, decodeCoinList rest with
      | Except.ok c, Except.ok cs => Except.ok (c :: cs)
      | Except.error e, _ => Except.error e
      | _, Except.error e => Except.error e

/-- Required `Vec<Coin>` field. -/
def getCoins (fields : List (String × Json)) (k : String) :
    Except DecodeError (List Coin) :=
  match jLookup k fields with
  | some (Json.arr xs) => decodeCoinList xs
  | some _ => Except.error (DecodeError.typeMismatch k)
  | none => Except.error (DecodeError.missingField k)

/-- Wire form to `Binary`: a base64 string. -/
def decodeBinary : Json → Except DecodeError Binary
  | Json.str s =>
      match b64DecodeBytes s.data with
      | some bytes => Except.ok ⟨bytes⟩
      | none => Except.error (DecodeError.typeMismatch "base64")
  | _ => Except.error (DecodeError.typeMismatch "Binary")

/-- Required `Binary` field. -/
def getBinary (fields : List (String × Json)) (k : String) :
    Except DecodeError Binary :=
  match jLookup k fields with
  | some j => decodeBinary j
  | none => Except.error (DecodeError.missingField k)

/-- Wire form to `Vec<u8>` elements: numbers below 256. -/
def decodeByteList : List Json → Except DecodeError (List Nat)
  | [] => Except.ok []
  | Json.num n :: rest =>
      if n < 256 then
        match decodeByteList rest with
        | Except.ok bs => Except.ok (n :: bs)
        | Except.error e => Except.error e
      else Except.error (DecodeError.typeMismatch "u8")
  | _ :: _ => Except.error (DecodeError.typeMismatch "u8")

/-- Optional `Vec<u8>` field: an absent or `null` field is `None` (serde
treats `Option` fields as implicitly defaulting), a number array is `Some`. -/
def getOptBytes (fields : List (String × Json)) (k : String) :
    Except DecodeError (Option (List Nat)) :=
  match jLookup k fields with
  | none => Except.ok none
  | some Json.null => Except.ok none
  | some (Json.arr xs) =>
      match decodeByteList xs with
      | Except.ok l => Except.ok (some l)
      | Except.error e => Except.error e
  | some _ => Except.error (DecodeError.typeMismatch k)

/-- Wire form to `BankMsg`. -/
def decodeBankMsg : Json → Except DecodeError BankMsg
  | Json.obj [(tag, content)] =>
      match tag with
      | "send" =>
          match content with
          | Json.obj fields =>
              match getStr fields "to_address", getCoins fields "amount" with
              | Except.ok t, Except.ok a => Except.ok (BankMsg.Send t a)
              | Except.error e, _ => Except.error e
              | _, Except.error e => Except.error e
          | _ => Except.error (DecodeError.typeMismatch "send")
      | "burn" =>
          match content with
          | Json.obj fields =>
              match getCoins fields "amount" with
              | Except.ok a => Except.ok (BankMsg.Burn a)
              | Except.error e => Except.error e
          | _ => Except.error (DecodeError.typeMismatch "burn")
      | _ => Except.error (DecodeError.unknownTag tag)
  | _ => Except.error (DecodeError.typeMismatch "BankMsg")

/-- Wire form to `StakingMsg`. -/
def decodeStakingMsg : Json → Except DecodeError StakingMsg
  | Json.obj [(tag, content)] =>
      match tag with
      | "delegate" =>
          match content with
          | Json.obj fields =>
              match getStr fields "validator", jLookup "amount" fields with
              | Except.ok v, some aj =>
                  match decodeCoin aj with
                  | Except.ok a => Except.ok (StakingMsg.Delegate v a)
                  | Except.error e => Except.error e
              | Except.error e, _ => Except.error e
              | _, none => Except.error (DecodeError.missingField "amount")
          | _ => Except.error (DecodeError.typeMismatch "delegate")
      | "undelegate" =>
          match content with
          | Json.obj fields =>
              match getStr fields "validator", jLookup "amount" fields with
              | Except.ok v, some aj =>
                  match decodeCoin aj with
                  | Except.ok a => Except.ok (StakingMsg.Undelegate v a)
                  | Except.error e => Except.error e
              | Except.error e, _ => Except.error e
              | _, none => Except.error (DecodeError.missingField "amount")
          | _ => Except.error (DecodeError.typeMismatch "undelegate")
      | "redelegate" =>
          match content with
          | Json.obj fields =>
              match getStr fields "src_validator",
                    getStr fields "dst_validator",
                    jLookup "amount" fields with
              | Except.ok s, Except.ok d, some aj =>
                  match decodeCoin aj with
                  | Except.ok a => Except.ok (StakingMsg.Redelegate s d a)
                  | Except.error e => Except.error e
              | Except.error e, _, _ => Except.error e
              | _, Except.error e, _ => Except.error e
              | _, _, none => Except.error (DecodeError.missingField "amount")
          | _ => Except.error (DecodeError.typeMismatch "redelegate")
      | _ => Except.error (DecodeError.unknownTag tag)
  | _ => Except.error (DecodeError.typeMismatch "StakingMsg")

/-- Wire form to `DistributionMsg`. -/
def decodeDistributionMsg : Json → Except DecodeError DistributionMsg
  | Json.obj [(tag, content)] =>
      match tag with
      | "set_withdraw_address" =>
          match content with
          | Json.obj fields =>
              match getStr fields "address" with
              | Except.ok a =>
                  Except.ok (DistributionMsg.SetWithdrawAddress a)
              | Except.error e => Except.error e
          | _ => Except.error (DecodeError.typeMismatch "set_withdraw_address")
      | "withdraw_delegator_reward" =>
          match content with
          | Json.obj fields =>
              match getStr fields "validator" with
              | Except.ok v =>
                  Except.ok (DistributionMsg.WithdrawDelegatorReward v)
              | Except.error e => Except.error e
          | _ =>
              Except.error (DecodeError.typeMismatch "withdraw_delegator_reward")
      | _ => Except.error (DecodeError.unknownTag tag)
  | _ => Except.error (DecodeError.typeMismatch "DistributionMsg")

/-- Wire form to `WasmMsg`.  The in-memory `funds` field is read back from
the wire key `send`. -/
def decodeWasmMsg : Json → Except DecodeError WasmMsg
  | Json.obj [(tag, content)] =>
      match tag with
      | "execute" =>
          match content with
          | Json.obj fields =>
              match getStr fields "contract_addr", getStr fields "code_hash",
                    getBinary fields "msg", getCoins fields "send",
                    getOptBytes fields "callback_sig" with
              | Except.ok ca, Except.ok ch, Except.ok m, Except.ok f,
                Except.ok cs => Except.ok (WasmMsg.Execute ca ch m f cs)
              | Except.error e, _, _, _, _ => Except.error e
              | _, Except.error e, _, _, _ => Except.error e
              | _, _, Except.error e, _, _ => Except.error e
              | _, _, _, Except.error e, _ => Except.error e
              | _, _, _, _, Except.error e => Except.error e
          | _ => Except.error (DecodeError.typeMismatch "execute")
      | "instantiate" =>
          match content with
          | Json.obj fields =>
              match getU64 fields "code_id", getStr fields "code_hash",
                    getBinary fields "msg", getCoins fields "send",
                    getStr fields "label",
                    getOptBytes fields "callback_sig" with
              | Except.ok ci, Except.ok ch, Except.ok m, Except.ok f,
                Except.ok l, Except.ok cs =>
                  Except.ok (WasmMsg.Instantiate ci ch m f l cs)
              | Except.error e, _, _, _, _, _ => Except.error e
              | _, Except.error e, _, _, _, _ => Except.error e
              | _, _, Except.error e, _, _, _ => Except.error e
              | _, _, _, Except.error e, _, _ => Except.error e
              | _, _, _, _, Except.error e, _ => Except.error e
              | _, _, _, _, _, Except.error e => Except.error e
          | _ => Except.error (DecodeError.typeMismatch "instantiate")
      | _ => Except.error (DecodeError.unknownTag tag)
  | _ => Except.error (DecodeError.typeMismatch "WasmMsg")

/-- Wire form to `VoteOption`: a bare string. -/
def decodeVoteOption : Json → Except DecodeError VoteOption
  | Json.str s =>
      match s with
      | "yes" => Except.ok VoteOption.Yes
      | "no" => Except.ok VoteOption.No
      | "abstain" => Except.ok VoteOption.Abstain
      | "no_with_veto" => Except.ok VoteOption.NoWithVeto
      | _ => Except.error (DecodeError.unknownTag s)
  | _ => Except.error (DecodeError.typeMismatch "VoteOption")

/-- Wire form to `GovMsg`. -/
def decodeGovMsg : Json → Except DecodeError GovMsg
  | Json.obj [(tag, content)] =>
      match tag with
      | "vote" =>
          match content with
          | Json.obj fields =>
              match getU64 fields "proposal_id", jLookup "vote" fields with
              | Except.ok p, some vj =>
                  match decodeVoteOption vj with
                  | Except.ok v => Except.ok (GovMsg.Vote p v)
                  | Except.error e => Except.error e
              | Except.error e, _ => Except.error e
              | _, none => Except.error (DecodeError.missingField "vote")
          | _ => Except.error (DecodeError.typeMismatch "vote")
      | _ => Except.error (DecodeError.unknownTag tag)
  | _ => Except.error (DecodeError.typeMismatch "GovMsg")

/-- Wire form to `Empty`: any object (no fields are required and unknown
fields are ignored). -/
def decodeEmpty : Json → Except DecodeError Empty
  | Json.obj _ => Except.ok ⟨⟩
  | _ => Except.error (DecodeError.typeMismatch "Empty")

/-- Wire form to `IbcMsg`.
Modelled from the spec: delegates to the external IBC schema, opaque here. -/
def decodeIbcMsg (j : Json) : Except DecodeError IbcMsg :=
  Except.ok ⟨j⟩

/-- Encode an `IbcMsg` to wire form.
Modelled from the spec: delegates to the external IBC schema, opaque here. -/
def encodeIbcMsg (m : IbcMsg) : Json := m.payload

/-- Wire form to `CosmosMsg<T>` in the full-featured build (`staking` and
`stargate` compiled in), given the codec of the `Custom` payload. -/
def decodeCosmosMsg {T : Type} (decT : Json → Except DecodeError T) :
    Json → Except DecodeError (CosmosMsg T)
  | Json.obj [(tag, content)] =>
      match tag with
      | "bank" =>
          match decodeBankMsg content with
          | Except.ok m => Except.ok (CosmosMsg.Bank m)
          | Except.error e => Except.error e
      | "custom" =>
          match decT content with
          | Except.ok t => Except.ok (CosmosMsg.Custom t)
          | Except.error e => Except.error e
      | "staking" =>
          match decodeStakingMsg content with
          | Except.ok m => Except.ok (CosmosMsg.Staking m)
          | Except.error e => Except.error e
      | "distribution" =>
          match decodeDistributionMsg content with
          | Except.ok m => Except.ok (CosmosMsg.Distribution m)
          | Except.error e => Except.error e
      | "stargate" =>
          match content with
          | Json.obj fields =>
              match getStr fields "type_url", getBinary fields "value" with
              | Except.ok u, Except.ok v =>
                  Except.ok (CosmosMsg.Stargate u v)
              | Except.error e, _ => Except.error e
              | _, Except.error e => Except.error e
          | _ => Except.error (DecodeError.typeMismatch "stargate")
      | "ibc" =>
          match decodeIbcMsg content with
          | Except.ok m => Except.ok (CosmosMsg.Ibc m)
          | Except.error e => Except.error e
      | "wasm" =>
          match decodeWasmMsg content with
          | Except.ok m => Except.ok (CosmosMsg.Wasm m)
          | Except.error e => Except.error e
      | "gov" =>
          match decodeGovMsg content with
          | Except.ok m => Except.ok (CosmosMsg.Gov m)
          | Except.error e => Except.error e
      | _ => Except.error (DecodeError.unknownTag tag)
  | _ => Except.error (DecodeError.typeMismatch "CosmosMsg")

/-- Wire form to `CosmosMsg<T>` in a build without the `staking` feature: the
`Staking` and `Distribution` match arms are absent (the `#[cfg]`-gated
variants do not exist), so those tags are unrecognized. -/
def decodeCosmosMsgNoStaking {T : Type}
    (decT : Json → Except DecodeError T) :
    Json → Except DecodeError (CosmosMsg T)
  | Json.obj [(tag, content)] =>
      match tag with
      | "bank" =>
          match decodeBankMsg content with
          | Except.ok m => Except.ok (CosmosMsg.Bank m)
          | Except.error e => Except.error e
      | "custom" =>
          match decT content with
          | Except.ok t => Except.ok (CosmosMsg.Custom t)
          | Except.error e => Except.error e
      | "stargate" =>
          match content with
          | Json.obj fields =>
              match getStr fields "type_url", getBinary fields "value" with
              | Except.ok u, Except.ok v =>
                  Except.ok (CosmosMsg.Stargate u v)
              | Except.error e, _ => Except.error e
              | _, Except.error e => Except.error e
          | _ => Except.error (DecodeError.typeMismatch "stargate")
      | "ibc" =>
          match decodeIbcMsg content with
          | Except.ok m => Except.ok (CosmosMsg.Ibc m)
          | Except.error e => Except.error e
      | "wasm" =>
          match decodeWasmMsg content with
          | Except.ok m => Except.ok (CosmosMsg.Wasm m)
          | Except.error e => Except.error e
      | "gov" =>
          match decodeGovMsg content with
          | Except.ok m => Except.ok (CosmosMsg.Gov m)
          | Except.error e => Except.error e
      | _ => Except.error (DecodeError.unknownTag tag)
  | _ => Except.error (DecodeError.typeMismatch "CosmosMsg")

/-! ### Validity

A value is valid when its numeric payloads fit the machine types of the
source: `Vec<u8>` entries are bytes, `u64` fields are below `2^64`.  String
and coin fields are unconstrained (they are opaque `String`s). -/

/-- Bytes of a `Binary` are below 256. -/
def Binary.Valid (b : Binary) : Prop := ∀ x ∈ b.data, x < 256

/-- Bytes of an optional `Vec<u8>` are below 256. -/
def OptBytesValid : Option (List Nat) → Prop
  | none => True
  | some l => ∀ x ∈ l, x < 256

/-- Field payloads of a `WasmMsg` fit their machine types. -/
def WasmMsg.Valid : WasmMsg → Prop
  | WasmMsg.Execute _ _ m _ cs => m.Valid ∧ OptBytesValid cs
  | WasmMsg.Instantiate ci _ m _ _ cs =>
      ci < 2 ^ 64 ∧ m.Valid ∧ OptBytesValid cs

/-- Field `proposal_id` fits `u64`. -/
def GovMsg.Valid : GovMsg → Prop
  | GovMsg.Vote p _ => p < 2 ^ 64

/-- Field payloads of a `CosmosMsg` fit their machine types. -/
def CosmosMsg.Valid {T : Type} : CosmosMsg T → Prop
  | CosmosMsg.Bank _ => True
  | CosmosMsg.Custom _ => True
  | CosmosMsg.Staking _ => True
  | CosmosMsg.Distribution _ => True
  | CosmosMsg.Stargate _ v => v.Valid
  | CosmosMsg.Ibc _ => True
  | CosmosMsg.Wasm m => m.Valid
  | CosmosMsg.Gov m => m.Valid

/-! ### Observation helpers over wire values and messages -/

/-- The `callback_sig` field of a `WasmMsg`. -/
def WasmMsg.callbackSig : WasmMsg → Option (List Nat)
  | WasmMsg.Execute _ _ _ _ cs => cs
  | WasmMsg.Instantiate _ _ _ _ _ cs => cs

/-- The `funds` field of a `WasmMsg`. -/
def WasmMsg.fundsOf : WasmMsg → List Coin
  | WasmMsg.Execute _ _ _ f _ => f
  | WasmMsg.Instantiate _ _ _ f _ _ => f

/-- The tag of a single-key wire object. -/
def topTag : Json → Option String
  | Json.obj [(t, _)] => some t
  | _ => none

/-- The field list of the struct object inside a single-key wire object. -/
def innerFields : Json → List (String × Json)
  | Json.obj [(_, Json.obj fields)] => fields
  | _ => []

/-- The snake_case wire tag each `CosmosMsg` variant must encode to. -/
def cosmosMsgTag {T : Type} : CosmosMsg T → String
  | CosmosMsg.Bank _ => "bank"
  | CosmosMsg.Custom _ => "custom"
  | CosmosMsg.Staking _ => "staking"
  | CosmosMsg.Distribution _ => "distribution"
  | CosmosMsg.Stargate _ _ => "stargate"
  | CosmosMsg.Ibc _ => "ibc"
  | CosmosMsg.Wasm _ => "wasm"
  | CosmosMsg.Gov _ => "gov"

/-- The snake_case wire tag each `BankMsg` variant must encode to. -/
def bankMsgTag : BankMsg → String
  | BankMsg.Send _ _ => "send"
  | BankMsg.Burn _ => "burn"

/-- The snake_case wire tag each `StakingMsg` variant must encode to. -/
def stakingMsgTag : StakingMsg → String
  | StakingMsg.Delegate _ _ => "delegate"
  | StakingMsg.Undelegate _ _ => "undelegate"
  | StakingMsg.Redelegate _ _ _ => "redelegate"

/-- The snake_case wire tag each `DistributionMsg` variant must encode to. -/
def distributionMsgTag : DistributionMsg → String
  | DistributionMsg.SetWithdrawAddress _ => "set_withdraw_address"
  | DistributionMsg.WithdrawDelegatorReward _ => "withdraw_delegator_reward"

/-- The snake_case wire tag each `WasmMsg` variant must encode to. -/
def wasmMsgTag : WasmMsg → String
  | WasmMsg.Execute _ _ _ _ _ => "execute"
  | WasmMsg.Instantiate _ _ _ _ _ _ => "instantiate"

/-- The snake_case wire tag each `GovMsg` variant must encode to. -/
def govMsgTag : GovMsg → String
  | GovMsg.Vote _ _ => "vote"

/-- The snake_case wire string each `VoteOption` variant must encode to. -/
def voteOptionTag : VoteOption → String
  | VoteOption.Yes => "yes"
  | VoteOption.No => "no"
  | VoteOption.Abstain => "abstain"
  | VoteOption.NoWithVeto => "no_with_veto"

/-- Append extra fields inside the struct object of an encoded message:
two tag levels deep for module sub-union variants, one level deep for
`stargate`-style struct variants. -/
def addFieldsDeep (j : Json) (extras : List (String × Json)) : Json :=
  match j with
  | Json.obj [(t1, Json.obj [(t2, Json.obj fields)])] =>
      Json.obj [(t1, Json.obj [(t2, Json.obj (fields ++ extras))])]
  | Json.obj [(t1, Json.obj fields)] =>
      Json.obj [(t1, Json.obj (fields ++ extras))]
  | _ => j

/-- The variants carrying a struct-style wire object (all but `Custom`, whose
shape belongs to the embedding application, and `Ibc`, which delegates to the
external IBC schema). -/
def CosmosMsg.StructStyle {T : Type} : CosmosMsg T → Prop
  | CosmosMsg.Custom _ => False
  | CosmosMsg.Ibc _ => False
  | _ => True

/-- The recognized wire field names of each struct-style variant. -/
def CosmosMsg.structFieldKeys {T : Type} : CosmosMsg T → List String
  | CosmosMsg.Bank (BankMsg.Send _ _) => ["to_address", "amount"]
  | CosmosMsg.Bank (BankMsg.Burn _) => ["amount"]
  | CosmosMsg.Staking (StakingMsg.Delegate _ _) => ["validator", "amount"]
  | CosmosMsg.Staking (StakingMsg.Undelegate _ _) => ["validator", "amount"]
  | CosmosMsg.Staking (StakingMsg.Redelegate _ _ _) =>
      ["src_validator", "dst_validator", "amount"]
  | CosmosMsg.Distribution (DistributionMsg.SetWithdrawAddress _) =>
      ["address"]
  | CosmosMsg.Distribution (DistributionMsg.WithdrawDelegatorReward _) =>
      ["validator"]
  | CosmosMsg.Stargate _ _ => ["type_url", "value"]
  | CosmosMsg.Wasm (WasmMsg.Execute _ _ _ _ _) =>
      ["contract_addr", "code_hash", "msg", "send", "callback_sig"]
  | CosmosMsg.Wasm (WasmMsg.Instantiate _ _ _ _ _ _) =>
      ["code_id", "code_hash", "msg", "send", "label", "callback_sig"]
  | CosmosMsg.Gov (GovMsg.Vote _ _) => ["proposal_id", "vote"]
  | _ => []

/-! ### Round-trip lemmas for the component codecs -/

theorem jLookup_append (k : String) (l1 l2 : List (String × Json)) :
    jLookup k (l1 ++ l2) = (jLookup k l1).or (jLookup k l2) := by
  induction l1 with
  | nil => simp [jLookup]
  | cons p rest ih =>
      obtain ⟨k', v⟩ := p
      by_cases h : k' = k
      · simp [jLookup, h]
      · simp [jLookup, h, ih]

theorem b64Val_b64Char : ∀ n, n < 64 → b64Val (b64Char n) = some n := by
  decide

theorem b64Char_ne_pad (n : Nat) : b64Char n ≠ '=' := by
  rcases lt_or_ge n 64 with h | h
  · exact (by decide : ∀ m, m < 64 → b64Char m ≠ '=') n h
  · have e : b64Alphabet.length = 64 := rfl
    unfold b64Char
    rw [List.getD_eq_default]
    · decide
    · omega

theorem b64_roundtrip (l : List Nat) (h : ∀ x ∈ l, x < 256) :
    b64DecodeBytes (b64EncodeBytes l) = some l := by
  induction l using b64EncodeBytes.induct with
  | case1 => rfl
  | case2 a =>
      have ha : a < 256 := h a (by simp)
      simp only [b64EncodeBytes, b64DecodeBytes]
      rw [if_pos (by simp), b64Val_b64Char _ (by omega),
          b64Val_b64Char _ (by omega)]
      simp only [Option.some.injEq, List.cons.injEq, and_true]
      omega
  | case3 a b =>
      have ha : a < 256 := h a (by simp)
      have hb : b < 256 := h b (by simp)
      simp only [b64EncodeBytes, b64DecodeBytes]
      rw [if_neg (by simp [b64Char_ne_pad]), if_pos (by simp),
          b64Val_b64Char _ (by omega), b64Val_b64Char _ (by omega),
          b64Val_b64Char _ (by omega)]
      simp only [Option.some.injEq, List.cons.injEq, and_true]
      omega
  | case4 a b c rest ih =>
      have ha : a < 256 := h a (by simp)
      have hb : b < 256 := h b (by simp)
      have hc : c < 256 := h c (by simp)
      have hrest := ih (fun x hx => h x (by simp [hx]))
      simp only [b64EncodeBytes, b64DecodeBytes]
      rw [if_neg (by simp [b64Char_ne_pad]),
          if_neg (by simp [b64Char_ne_pad]),
          b64Val_b64Char _ (by omega), b64Val_b64Char _ (by omega),
          b64Val_b64Char _ (by omega), b64Val_b64Char _ (by omega), hrest]
      simp only [Option.some.injEq, List.cons.injEq, and_true]
      omega

theorem decodeBinary_encodeBinary (b : Binary) (h : b.Valid) :
    decodeBinary (encodeBinary b) = Except.ok b := by
  obtain ⟨data⟩ := b
  simp only [encodeBinary, decodeBinary]
  rw [b64_roundtrip data h]

theorem decodeCoin_encodeCoin (c : Coin) :
    decodeCoin (encodeCoin c) = Except.ok c := rfl

theorem decodeCoinList_map (l : List Coin) :
    decodeCoinList (l.map encodeCoin) = Except.ok l := by
  induction l with
  | nil => rfl
  | cons c rest ih => simp [decodeCoinList, decodeCoin_encodeCoin, ih]

theorem decodeByteList_map (l : List Nat) (h : ∀ x ∈ l, x < 256) :
    decodeByteList (l.map Json.num) = Except.ok l := by
  induction l with
  | nil => rfl
  | cons b rest ih =>
      have hb : b < 256 := h b (by simp)
      have hr := ih (fun x hx => h x (by simp [hx]))
      simp [decodeByteList, hb, hr]

theorem decodeBankMsg_encodeBankMsg (m : BankMsg) :
    decodeBankMsg (encodeBankMsg m) = Except.ok m := by
  cases m with
  | Send t l =>
      simp [encodeBankMsg, decodeBankMsg, getStr, getCoins, jLookup,
            decodeCoinList_map]
  | Burn l =>
      simp [encodeBankMsg, decodeBankMsg, getCoins, jLookup,
            decodeCoinList_map]

theorem decodeStakingMsg_encodeStakingMsg (m : StakingMsg) :
    decodeStakingMsg (encodeStakingMsg m) = Except.ok m := by
  cases m with
  | Delegate v a =>
      simp [encodeStakingMsg, decodeStakingMsg, getStr, jLookup,
            decodeCoin_encodeCoin]
  | Undelegate v a =>
      simp [encodeStakingMsg, decodeStakingMsg, getStr, jLookup,
            decodeCoin_encodeCoin]
  | Redelegate s d a =>
      simp [encodeStakingMsg, decodeStakingMsg, getStr, jLookup,
            decodeCoin_encodeCoin]

theorem decodeDistributionMsg_encodeDistributionMsg (m : DistributionMsg) :
    decodeDistributionMsg (encodeDistributionMsg m) = Except.ok m := by
  cases m with
  | SetWithdrawAddress a =>
      simp [encodeDistributionMsg, decodeDistributionMsg, getStr, jLookup]
  | WithdrawDelegatorReward v =>
      simp [encodeDistributionMsg, decodeDistributionMsg, getStr, jLookup]

theorem getOptBytes_encodeOptBytes (fields : List (String × Json))
    (cs : Option (List Nat)) (h : OptBytesValid cs)
    (hl : jLookup "callback_sig" fields = some (encodeOptBytes cs)) :
    getOptBytes fields "callback_sig" = Except.ok cs := by
  cases cs with
  | none => simp [getOptBytes, hl, encodeOptBytes]
  | some l =>
      simp only [OptBytesValid] at h
      simp [getOptBytes, hl, encodeOptBytes, decodeByteList_map l h]

theorem decodeWasmMsg_encodeWasmMsg (m : WasmMsg) (h : m.Valid) :
    decodeWasmMsg (encodeWasmMsg m) = Except.ok m := by
  cases m with
  | Execute ca ch msg funds cs =>
      obtain ⟨hm, hcs⟩ := h
      have hopt := getOptBytes_encodeOptBytes
        [("contract_addr", Json.str ca), ("code_hash", Json.str ch),
         ("msg", encodeBinary msg), ("send", Json.arr (funds.map encodeCoin)),
         ("callback_sig", encodeOptBytes cs)] cs hcs (by simp [jLookup])
      simp [encodeWasmMsg, decodeWasmMsg, getStr, getBinary, getCoins,
            jLookup, decodeCoinList_map, decodeBinary_encodeBinary msg hm,
            hopt]
  | Instantiate ci ch msg funds label cs =>
      obtain ⟨hci, hm, hcs⟩ := h
      have hci' : ci < 18446744073709551616 := hci
      have hopt := getOptBytes_encodeOptBytes
        [("code_id", Json.num ci), ("code_hash", Json.str ch),
         ("msg", encodeBinary msg), ("send", Json.arr (funds.map encodeCoin)),
         ("label", Json.str label), ("callback_sig", encodeOptBytes cs)]
        cs hcs (by simp [jLookup])
      simp [encodeWasmMsg, decodeWasmMsg, getStr, getU64, getBinary, getCoins,
            jLookup, decodeCoinList_map, decodeBinary_encodeBinary msg hm,
            hopt, hci']

theorem decodeVoteOption_encodeVoteOption (v : VoteOption) :
    decodeVoteOption (encodeVoteOption v) = Except.ok v := by
  cases v <;> rfl

theorem decodeGovMsg_encodeGovMsg (m : GovMsg) (h : m.Valid) :
    decodeGovMsg (encodeGovMsg m) = Except.ok m := by
  cases m with
  | Vote p v =>
      simp only [GovMsg.Valid] at h
      have h' : p < 18446744073709551616 := h
      simp [encodeGovMsg, decodeGovMsg, getU64, jLookup, h',
            decodeVoteOption_encodeVoteOption]

/-! ### Claim theorems -/

/-- C1: for every valid envelope value of every compiled-in variant (Bank
Send/Burn, Custom, Staking Delegate/Undelegate/Redelegate, Distribution
SetWithdrawAddress/WithdrawDelegatorReward, Stargate, Ibc, Wasm
Execute/Instantiate, Gov Vote), decoding the encoding yields a structurally
equal value — covering empty `amount` sequences, `code_id` zero, unset
`callback_sig` and any-length labels, since the fields are quantified. -/
theorem C1_decode_encode_roundtrip {T : Type} (encT : T → Json)
    (decT : Json → Except DecodeError T)
    (hT : ∀ t, decT (encT t) = Except.ok t)
    (m : CosmosMsg T) (hm : m.Valid) :
    decodeCosmosMsg decT (encodeCosmosMsg encT m) = Except.ok m := by
  cases m with
  | Bank b =>
      simp [encodeCosmosMsg, decodeCosmosMsg, decodeBankMsg_encodeBankMsg]
  | Custom t => simp [encodeCosmosMsg, decodeCosmosMsg, hT]
  | Staking s =>
      simp [encodeCosmosMsg, decodeCosmosMsg,
            decodeStakingMsg_encodeStakingMsg]
  | Distribution d =>
      simp [encodeCosmosMsg, decodeCosmosMsg,
            decodeDistributionMsg_encodeDistributionMsg]
  | Stargate u v =>
      simp only [CosmosMsg.Valid] at hm
      simp [encodeCosmosMsg, decodeCosmosMsg, getStr, getBinary, jLookup,
            decodeBinary_encodeBinary v hm]
  | Ibc i =>
      obtain ⟨p⟩ := i
      simp [encodeCosmosMsg, decodeCosmosMsg, decodeIbcMsg]
  | Wasm w =>
      simp only [CosmosMsg.Valid] at hm
      simp [encodeCosmosMsg, decodeCosmosMsg,
            decodeWasmMsg_encodeWasmMsg w hm]
  | Gov g =>
      simp only [CosmosMsg.Valid] at hm
      simp [encodeCosmosMsg, decodeCosmosMsg, decodeGovMsg_encodeGovMsg g hm]

/-- Witness for C1 at a concrete edge-case input: `Instantiate` with
`code_id = 0`, empty funds, unset `callback_sig`. -/
theorem C1_roundtrip_witness :
    decodeCosmosMsg decodeEmpty (encodeCosmosMsg encodeEmpty
      (CosmosMsg.Wasm (WasmMsg.Instantiate 0 "cafe" ⟨[123, 125]⟩ []
        "a-long-label" none))) =
      Except.ok (CosmosMsg.Wasm (WasmMsg.Instantiate 0 "cafe" ⟨[123, 125]⟩ []
        "a-long-label" none)) :=
  C1_decode_encode_roundtrip encodeEmpty decodeEmpty (fun _ => rfl) _
    ⟨by norm_num, (by decide : ∀ x ∈ [123, 125], x < 256), trivial⟩

/-- C2 counterexample: for `WasmMsg::Execute` with `callback_sig` unset, the
serialized wire form DOES contain a `callback_sig` entry — bound to JSON
`null` — contradicting the claim that the key is absent with no sentinel.
(The source declares `callback_sig: Option<Vec<u8>>` without
`skip_serializing_if`, so serde emits `null`.) -/
theorem C2_counterexample :
    jLookup "callback_sig" (innerFields (encodeWasmMsg
      (WasmMsg.Execute "contract" "hash" ⟨[]⟩ [] none))) = some Json.null ∧
    jLookup "callback_sig" (innerFields (encodeWasmMsg
      (WasmMsg.Execute "contract" "hash" ⟨[]⟩ [] none))) ≠ none :=
  ⟨rfl, fun h => Option.noConfusion h⟩

/-- C2 (amended): for every `WasmMsg::Execute` or `WasmMsg::Instantiate`, the
wire form always carries a `callback_sig` entry: JSON `null` when the field is
unset, and the underlying byte-sequence value when it is set. -/
theorem C2_callback_sig_wire (w : WasmMsg) :
    jLookup "callback_sig" (innerFields (encodeWasmMsg w)) =
      some (match w.callbackSig with
            | none => Json.null
            | some l => Json.arr (l.map Json.num)) := by
  cases w with
  | Execute ca ch m f cs =>
      cases cs <;>
        simp [encodeWasmMsg, innerFields, jLookup, WasmMsg.callbackSig,
              encodeOptBytes]
  | Instantiate ci ch m f l cs =>
      cases cs <;>
        simp [encodeWasmMsg, innerFields, jLookup, WasmMsg.callbackSig,
              encodeOptBytes]

/-- C3: every variant encodes under its exact lower-case snake_case wire tag
(including sub-tags such as `set_withdraw_address` and `no_with_veto`); the
in-memory `funds` field of both Wasm variants is written under the wire key
`send` (and `funds` never appears on the wire); and the concrete scenario:
encoding the envelope wrapping
`WasmMsg::Execute{contract_addr:"secret1abc", code_hash:"deadbeef",
msg: Binary([0x7b,0x7d]), funds: [], callback_sig: None}` produces the nested
tag sequence `{"wasm":{"execute":{...}}}` with `send` as the funds key, and it
decodes back to an identical value. -/
theorem C3_tag_stability :
    (∀ (T : Type) (encT : T → Json) (m : CosmosMsg T),
        topTag (encodeCosmosMsg encT m) = some (cosmosMsgTag m)) ∧
    (∀ m : BankMsg, topTag (encodeBankMsg m) = some (bankMsgTag m)) ∧
    (∀ m : StakingMsg, topTag (encodeStakingMsg m) = some (stakingMsgTag m)) ∧
    (∀ m : DistributionMsg,
        topTag (encodeDistributionMsg m) = some (distributionMsgTag m)) ∧
    (∀ m : WasmMsg, topTag (encodeWasmMsg m) = some (wasmMsgTag m)) ∧
    (∀ m : GovMsg, topTag (encodeGovMsg m) = some (govMsgTag m)) ∧
    (∀ v : VoteOption, encodeVoteOption v = Json.str (voteOptionTag v)) ∧
    (∀ w : WasmMsg,
        jLookup "send" (innerFields (encodeWasmMsg w)) =
          some (Json.arr ((w.fundsOf).map encodeCoin)) ∧
        jLookup "funds" (innerFields (encodeWasmMsg w)) = none) ∧
    (encodeCosmosMsg encodeEmpty (CosmosMsg.Wasm (WasmMsg.Execute
        "secret1abc" "deadbeef" ⟨[0x7b, 0x7d]⟩ [] none)) =
      Json.obj [("wasm", Json.obj [("execute", Json.obj
        [("contract_addr", Json.str "secret1abc"),
         ("code_hash", Json.str "deadbeef"),
         ("msg", Json.str "e30="),
         ("send", Json.arr []),
         ("callback_sig", Json.null)])])]) ∧
    (decodeCosmosMsg decodeEmpty (encodeCosmosMsg encodeEmpty
        (CosmosMsg.Wasm (WasmMsg.Execute
          "secret1abc" "deadbeef" ⟨[0x7b, 0x7d]⟩ [] none))) =
      Except.ok (CosmosMsg.Wasm (WasmMsg.Execute
          "secret1abc" "deadbeef" ⟨[0x7b, 0x7d]⟩ [] none))) := by
  refine ⟨?_, ?_, ?_, ?_, ?_, ?_, ?_, ?_, ?_, ?_⟩
  · intro T encT m; cases m <;> rfl
  · intro m; cases m <;> rfl
  · intro m; cases m <;> rfl
  · intro m; cases m <;> rfl
  · intro m; cases m <;> rfl
  · intro m; cases m; rfl
  · intro v; cases v <;> rfl
  · intro w
    cases w <;>
      simp [encodeWasmMsg, innerFields, jLookup, WasmMsg.fundsOf]
  · rfl
  · rfl

/-- C4: decoding a payload whose top-level tag names a capability that is not
compiled in (tag `staking` in a build without the `staking` feature) fails
with a `DecodeError` for every payload, rather than yielding a silently
ignored or default value; an unrecognized top-level tag fails in the full
build as well; and a missing required field or a type mismatch inside a
variant also fails with the corresponding `DecodeError`. -/
theorem C4_decode_failure :
    (∀ (T : Type) (decT : Json → Except DecodeError T) (j : Json),
        decodeCosmosMsgNoStaking decT (Json.obj [("staking", j)]) =
          Except.error (DecodeError.unknownTag "staking")) ∧
    (∀ (T : Type) (decT : Json → Except DecodeError T) (tag : String)
        (j : Json),
        tag ∉ ["bank", "custom", "staking", "distribution", "stargate",
               "ibc", "wasm", "gov"] →
        decodeCosmosMsg decT (Json.obj [(tag, j)]) =
          Except.error (DecodeError.unknownTag tag)) ∧
    (decodeBankMsg (Json.obj [("send", Json.obj [("amount", Json.arr [])])]) =
      Except.error (DecodeError.missingField "to_address")) ∧
    (decodeBankMsg (Json.obj [("send", Json.obj
        [("to_address", Json.num 5), ("amount", Json.arr [])])]) =
      Except.error (DecodeError.typeMismatch "to_address")) := by
  refine ⟨?_, ?_, rfl, rfl⟩
  · intro T decT j
    rfl
  · intro T decT tag j h
    simp only [List.mem_cons, List.mem_singleton, not_or] at h
    obtain ⟨h1, h2, h3, h4, h5, h6, h7, h8⟩ := h
    simp only [decodeCosmosMsg]
    split
    all_goals simp_all

/-- Witness for C4 at a concrete unrecognized tag. -/
theorem C4_decode_failure_witness :
    decodeCosmosMsg (T := Empty) decodeEmpty
      (Json.obj [("unknown_module", Json.null)]) =
      Except.error (DecodeError.unknownTag "unknown_module") :=
  C4_decode_failure.2.1 Empty decodeEmpty "unknown_module" Json.null
    (by decide)

/-- C5: for every module sub-union, the upcast into the envelope is total,
performs no validation, and equals the envelope constructed directly with the
corresponding variant; in particular
`BankMsg::Burn{amount:[Coin{denom:"uscrt",amount:"100"}]}` upcast equals
`CosmosMsg::Bank(BankMsg::Burn{...})`. -/
theorem C5_upcast_is_wrap :
    (∀ (T : Type) (m : BankMsg),
        cosmosMsgFromBank (T := T) m = CosmosMsg.Bank m) ∧
    (∀ (T : Type) (m : StakingMsg),
        cosmosMsgFromStaking (T := T) m = CosmosMsg.Staking m) ∧
    (∀ (T : Type) (m : DistributionMsg),
        cosmosMsgFromDistribution (T := T) m = CosmosMsg.Distribution m) ∧
    (∀ (T : Type) (m : WasmMsg),
        cosmosMsgFromWasm (T := T) m = CosmosMsg.Wasm m) ∧
    (∀ (T : Type) (m : IbcMsg),
        cosmosMsgFromIbc (T := T) m = CosmosMsg.Ibc m) ∧
    (∀ (T : Type) (m : GovMsg),
        cosmosMsgFromGov (T := T) m = CosmosMsg.Gov m) ∧
    cosmosMsgFromBank (T := Empty) (BankMsg.Burn [⟨"uscrt", "100"⟩]) =
      CosmosMsg.Bank (BankMsg.Burn [⟨"uscrt", "100"⟩]) :=
  ⟨fun _ _ => rfl, fun _ _ => rfl, fun _ _ => rfl, fun _ _ => rfl,
   fun _ _ => rfl, fun _ _ => rfl, rfl⟩

/-- C6: for every module sub-union value whose capability is compiled in, the
upcast commutes with the codec: decoding the encoding of the upcast envelope
equals the upcast (under `Except.map`) of decoding the encoding of the
sub-union value. -/
theorem C6_upcast_commutes (T : Type) (encT : T → Json)
    (decT : Json → Except DecodeError T) :
    (∀ m : BankMsg,
        decodeCosmosMsg decT (encodeCosmosMsg encT (cosmosMsgFromBank m)) =
          Except.map cosmosMsgFromBank (decodeBankMsg (encodeBankMsg m))) ∧
    (∀ m : StakingMsg,
        decodeCosmosMsg decT (encodeCosmosMsg encT (cosmosMsgFromStaking m)) =
          Except.map cosmosMsgFromStaking
            (decodeStakingMsg (encodeStakingMsg m))) ∧
    (∀ m : DistributionMsg,
        decodeCosmosMsg decT
            (encodeCosmosMsg encT (cosmosMsgFromDistribution m)) =
          Except.map cosmosMsgFromDistribution
            (decodeDistributionMsg (encodeDistributionMsg m))) ∧
    (∀ m : WasmMsg, m.Valid →
        decodeCosmosMsg decT (encodeCosmosMsg encT (cosmosMsgFromWasm m)) =
          Except.map cosmosMsgFromWasm (decodeWasmMsg (encodeWasmMsg m))) ∧
    (∀ m : IbcMsg,
        decodeCosmosMsg decT (encodeCosmosMsg encT (cosmosMsgFromIbc m)) =
          Except.map cosmosMsgFromIbc (decodeIbcMsg (encodeIbcMsg m))) ∧
    (∀ m : GovMsg, m.Valid →
        decodeCosmosMsg decT (encodeCosmosMsg encT (cosmosMsgFromGov m)) =
          Except.map cosmosMsgFromGov (decodeGovMsg (encodeGovMsg m))) := by
  refine ⟨?_, ?_, ?_, ?_, ?_, ?_⟩
  · intro m
    simp [cosmosMsgFromBank, encodeCosmosMsg, decodeCosmosMsg,
          decodeBankMsg_encodeBankMsg, Except.map]
  · intro m
    simp [cosmosMsgFromStaking, encodeCosmosMsg, decodeCosmosMsg,
          decodeStakingMsg_encodeStakingMsg, Except.map]
  · intro m
    simp [cosmosMsgFromDistribution, encodeCosmosMsg, decodeCosmosMsg,
          decodeDistributionMsg_encodeDistributionMsg, Except.map]
  · intro m hm
    simp [cosmosMsgFromWasm, encodeCosmosMsg, decodeCosmosMsg,
          decodeWasmMsg_encodeWasmMsg m hm, Except.map]
  · intro m
    obtain ⟨p⟩ := m
    simp [cosmosMsgFromIbc, encodeCosmosMsg, encodeIbcMsg, decodeCosmosMsg,
          decodeIbcMsg, Except.map]
  · intro m hm
    simp [cosmosMsgFromGov, encodeCosmosMsg, decodeCosmosMsg,
          decodeGovMsg_encodeGovMsg m hm, Except.map]

/-- Witness for C6 at a concrete `GovMsg` value. -/
theorem C6_upcast_commutes_witness :
    decodeCosmosMsg decodeEmpty (encodeCosmosMsg encodeEmpty
      (cosmosMsgFromGov (GovMsg.Vote 1 VoteOption.Yes))) =
      Except.map cosmosMsgFromGov
        (decodeGovMsg (encodeGovMsg (GovMsg.Vote 1 VoteOption.Yes))) :=
  (C6_upcast_commutes Empty encodeEmpty decodeEmpty).2.2.2.2.2
    (GovMsg.Vote 1 VoteOption.Yes) (by norm_num : (1 : Nat) < 2 ^ 64)

/-- C7: the contract-facing constructors of `Execute` and `Instantiate` never
auto-populate `callback_sig`: the constructed value carries exactly the
`callback_sig` supplied by the caller. -/
theorem C7_callback_sig_not_autopopulated :
    (∀ (ca ch : String) (m : Binary) (f : List Coin)
        (cs : Option (List Nat)),
        (WasmMsg.Execute ca ch m f cs).callbackSig = cs) ∧
    (∀ (ci : Nat) (ch : String) (m : Binary) (f : List Coin) (l : String)
        (cs : Option (List Nat)),
        (WasmMsg.Instantiate ci ch m f l cs).callbackSig = cs) :=
  ⟨fun _ _ _ _ _ => rfl, fun _ _ _ _ _ _ => rfl⟩

/-- C8: `REPLY_ENCRYPTION_MAGIC_BYTES` is exactly the 7-byte ASCII sequence
`"REPLY01"`, bytes `0x52 0x45 0x50 0x4C 0x59 0x30 0x31` (a Lean `def` is
immutable, modelling the read-only constant). -/
theorem C8_reply_magic_bytes :
    REPLY_ENCRYPTION_MAGIC_BYTES =
      [0x52, 0x45, 0x50, 0x4C, 0x59, 0x30, 0x31] ∧
    REPLY_ENCRYPTION_MAGIC_BYTES.length = 7 :=
  ⟨rfl, rfl⟩

/-- C9: a wasm `execute` or `instantiate` wire payload in which the
`callback_sig` key is entirely absent decodes successfully, yielding
`callback_sig = None`. -/
theorem C9_absent_callback_sig_decodes_none
    (ca ch : String) (m : Binary) (funds : List Coin) (label : String)
    (ci : Nat) (hm : m.Valid) (hci : ci < 2 ^ 64) :
    decodeWasmMsg (Json.obj [("execute", Json.obj
      [("contract_addr", Json.str ca), ("code_hash", Json.str ch),
       ("msg", encodeBinary m),
       ("send", Json.arr (funds.map encodeCoin))])]) =
      Except.ok (WasmMsg.Execute ca ch m funds none) ∧
    decodeWasmMsg (Json.obj [("instantiate", Json.obj
      [("code_id", Json.num ci), ("code_hash", Json.str ch),
       ("msg", encodeBinary m),
       ("send", Json.arr (funds.map encodeCoin)),
       ("label", Json.str label)])]) =
      Except.ok (WasmMsg.Instantiate ci ch m funds label none) := by
  have hci' : ci < 18446744073709551616 := hci
  constructor <;>
    simp [decodeWasmMsg, getStr, getU64, getBinary, getCoins, getOptBytes,
          jLookup, decodeCoinList_map, decodeBinary_encodeBinary m hm, hci']

/-- Witness for C9 at concrete payloads without a `callback_sig` key. -/
theorem C9_absent_callback_sig_witness :
    decodeWasmMsg (Json.obj [("execute", Json.obj
      [("contract_addr", Json.str "a"), ("code_hash", Json.str "h"),
       ("msg", encodeBinary ⟨[1, 2]⟩),
       ("send", Json.arr (([⟨"uscrt", "1"⟩] : List Coin).map encodeCoin))])]) =
      Except.ok (WasmMsg.Execute "a" "h" ⟨[1, 2]⟩ [⟨"uscrt", "1"⟩] none) ∧
    decodeWasmMsg (Json.obj [("instantiate", Json.obj
      [("code_id", Json.num 0), ("code_hash", Json.str "h"),
       ("msg", encodeBinary ⟨[1, 2]⟩),
       ("send", Json.arr (([⟨"uscrt", "1"⟩] : List Coin).map encodeCoin)),
       ("label", Json.str "lbl")])]) =
      Except.ok (WasmMsg.Instantiate 0 "h" ⟨[1, 2]⟩ [⟨"uscrt", "1"⟩]
        "lbl" none) :=
  C9_absent_callback_sig_decodes_none "a" "h" ⟨[1, 2]⟩ [⟨"uscrt", "1"⟩]
    "lbl" 0 (by decide : ∀ x ∈ [1, 2], x < 256) (by norm_num)

/-- C10: a wire payload with a recognized tag and all required fields intact
still decodes successfully when unrecognized extra fields are present inside
the struct-style variant's object: unknown fields are silently ignored for
every struct-style variant of the envelope and its sub-unions. -/
theorem C10_unknown_fields_ignored (T : Type) (encT : T → Json)
    (decT : Json → Except DecodeError T) (m : CosmosMsg T) (hm : m.Valid)
    (hs : m.StructStyle) (extras : List (String × Json))
    (hfresh : ∀ p ∈ extras, p.1 ∉ m.structFieldKeys) :
    decodeCosmosMsg decT (addFieldsDeep (encodeCosmosMsg encT m) extras) =
      Except.ok m := by
  cases m with
  | Bank b =>
      cases b with
      | Send t l =>
          simp [encodeCosmosMsg, encodeBankMsg, addFieldsDeep,
                decodeCosmosMsg, decodeBankMsg, getStr, getCoins,
                jLookup_append, jLookup, decodeCoinList_map]
      | Burn l =>
          simp [encodeCosmosMsg, encodeBankMsg, addFieldsDeep,
                decodeCosmosMsg, decodeBankMsg, getCoins, jLookup_append,
                jLookup, decodeCoinList_map]
  | Custom t => exact hs.elim
  | Staking s =>
      cases s <;>
        simp [encodeCosmosMsg, encodeStakingMsg, addFieldsDeep,
              decodeCosmosMsg, decodeStakingMsg, getStr, jLookup_append,
              jLookup, decodeCoin_encodeCoin]
  | Distribution d =>
      cases d <;>
        simp [encodeCosmosMsg, encodeDistributionMsg, addFieldsDeep,
              decodeCosmosMsg, decodeDistributionMsg, getStr, jLookup_append,
              jLookup]
  | Stargate u v =>
      simp only [CosmosMsg.Valid] at hm
      simp [encodeCosmosMsg, addFieldsDeep, decodeCosmosMsg, getStr,
            getBinary, jLookup_append, jLookup,
            decodeBinary_encodeBinary v hm]
  | Ibc i => exact hs.elim
  | Wasm w =>
      simp only [CosmosMsg.Valid] at hm
      cases w with
      | Execute ca ch mg f cs =>
          obtain ⟨h1, h2⟩ := hm
          cases cs with
          | none =>
              simp [encodeCosmosMsg, encodeWasmMsg, addFieldsDeep,
                    decodeCosmosMsg, decodeWasmMsg, getStr, getBinary,
                    getCoins, getOptBytes, encodeOptBytes, jLookup_append,
                    jLookup, decodeCoinList_map,
                    decodeBinary_encodeBinary mg h1]
          | some bl =>
              simp only [OptBytesValid] at h2
              simp [encodeCosmosMsg, encodeWasmMsg, addFieldsDeep,
                    decodeCosmosMsg, decodeWasmMsg, getStr, getBinary,
                    getCoins, getOptBytes, encodeOptBytes, jLookup_append,
                    jLookup, decodeCoinList_map,
                    decodeBinary_encodeBinary mg h1, decodeByteList_map bl h2]
      | Instantiate ci ch mg f lb cs =>
          obtain ⟨hci, h1, h2⟩ := hm
          have hci' : ci < 18446744073709551616 := hci
          cases cs with
          | none =>
              simp [encodeCosmosMsg, encodeWasmMsg, addFieldsDeep,
                    decodeCosmosMsg, decodeWasmMsg, getStr, getU64,
                    getBinary, getCoins, getOptBytes, encodeOptBytes,
                    jLookup_append, jLookup, decodeCoinList_map,
                    decodeBinary_encodeBinary mg h1, hci']
          | some bl =>
              simp only [OptBytesValid] at h2
              simp [encodeCosmosMsg, encodeWasmMsg, addFieldsDeep,
                    decodeCosmosMsg, decodeWasmMsg, getStr, getU64,
                    getBinary, getCoins, getOptBytes, encodeOptBytes,
                    jLookup_append, jLookup, decodeCoinList_map,
                    decodeBinary_encodeBinary mg h1, hci',
                    decodeByteList_map bl h2]
  | Gov g =>
      cases g with
      | Vote p v =>
          simp only [CosmosMsg.Valid, GovMsg.Valid] at hm
          have hm' : p < 18446744073709551616 := hm
          simp [encodeCosmosMsg, encodeGovMsg, addFieldsDeep,
                decodeCosmosMsg, decodeGovMsg, getU64, jLookup_append,
                jLookup, hm', decodeVoteOption_encodeVoteOption]

/-- Witness for C10: a bank `send` payload with one unrecognized extra field
still decodes to the original value. -/
theorem C10_unknown_fields_witness :
    decodeCosmosMsg (T := Empty) decodeEmpty (addFieldsDeep
      (encodeCosmosMsg encodeEmpty (CosmosMsg.Bank (BankMsg.Send "addr" [])))
      [("unknown_key", Json.num 7)]) =
      Except.ok (CosmosMsg.Bank (BankMsg.Send "addr" [])) :=
  C10_unknown_fields_ignored Empty encodeEmpty decodeEmpty
    (CosmosMsg.Bank (BankMsg.Send "addr" [])) trivial trivial
    [("unknown_key", Json.num 7)]
    (by intro p hp; rw [List.mem_singleton] at hp; subst hp; decide)

end SecretNet
